import Mathlib

/-!
Verification of the pharma sales ETL pipeline (etl_pipeline.py).

The pipeline loads seven database views into tabular results, exports each
as a timestamped CSV, computes a single-row KPI record from three of the
views, and exports that record as a final CSV.  Numbers are modelled by ℚ
(the Python script works with Python floats; the rational model captures
the arithmetic exactly), tables by lists of typed rows for the three KPI
inputs and by a generic column/row structure elsewhere, and fallible
operations by `Except` / `Option`.
-/

namespace PharmaETL

/-- A row of the sales-export table (vw_sales_export): the KPI calculator
reads its `product` and `amount_usd` columns. -/
structure SalesRow where
  product : String
  amount_usd : ℚ
  deriving Repr, DecidableEq

/-- A row of the salesperson-ranking table (summary_sales_person):
columns `sales_person` and `total_sales`. -/
structure TopSalesRow where
  sales_person : String
  total_sales : ℚ
  deriving Repr, DecidableEq

/-- A row of the monthly-aggregate table (vw_monthly_sales):
columns `year`, `month`, `total_sales`. -/
structure MonthlyRow where
  year : Int
  month : Int
  total_sales : ℚ
  deriving Repr, DecidableEq

/-- The single KPI record produced by `compute_kpis`: seven named fields,
packaged by the source as a one-row DataFrame. -/
structure KpiRecord where
  total_revenue : ℚ
  total_orders : Nat
  avg_order_value : ℚ
  avg_revenue_per_product : ℚ
  top_salesperson : String
  top_salesperson_revenue : ℚ
  monthly_growth_pct : ℚ
  deriving Repr, DecidableEq

/-- Python `round(x, 2)` over the rational model: round `100 * x` to the
nearest integer and divide back by 100. -/
def round2 (q : ℚ) : ℚ := ((⌊q * 100 + 1 / 2⌋ : ℤ) : ℚ) / 100

/-- Ascending comparison on `(year, month)`, the sort key of
`monthly_df.sort_values(["year", "month"])`. -/
def monthLe (a b : MonthlyRow) : Bool :=
  a.year < b.year || (a.year == b.year && a.month ≤ b.month)

/-- Insert a monthly row into a list sorted ascending by `(year, month)`. -/
def insertMonthly (r : MonthlyRow) : List MonthlyRow → List MonthlyRow
  | [] => [r]
  | x :: xs => if monthLe r x then r :: x :: xs else x :: insertMonthly r xs

/-- Sort the monthly table ascending by `(year, month)`, embedding
`monthly_df.sort_values(["year", "month"])`. -/
def sortMonthly : List MonthlyRow → List MonthlyRow
  | [] => []
  | x :: xs => insertMonthly x (sortMonthly xs)

/-- Placeholder row used to totalize the positional `iloc` accesses; every
access in `compute_kpis` is guarded so the placeholder is never returned. -/
def defaultMonthlyRow : MonthlyRow := ⟨0, 0, 0⟩

/-- The monthly-growth block of `compute_kpis`:
`monthly_growth_pct = 0.0` unless the monthly table is non-empty, in which
case the table is sorted by `(year, month)`, `last = mdf.iloc[-1]["total_sales"]`,
`prev = mdf.iloc[-2]["total_sales"] if len(mdf) > 1 else last`, and the
growth is `(last - prev) / prev * 100` when `prev != 0`, else `0`. -/
def monthlyGrowthPct (monthly_df : List MonthlyRow) : ℚ :=
  if monthly_df.isEmpty then 0
  else
    let mdf := sortMonthly monthly_df
    let lastV := (mdf.getLast?.getD defaultMonthlyRow).total_sales
    let prevV :=
      if 1 < mdf.length then ((mdf.get? (mdf.length - 2)).getD defaultMonthlyRow).total_sales
      else lastV
    if prevV ≠ 0 then (lastV - prevV) / prevV * 100 else 0

/-- Distinct values of a string column, first occurrence kept; `seen`
accumulates the values already emitted. -/
def dedupAux (seen : List String) : List String → List String
  | [] => []
  | x :: xs => if seen.contains x then dedupAux seen xs else x :: dedupAux (x :: seen) xs

/-- The distinct values of a string column (group keys of a pandas
`groupby`); the enumeration order does not affect any KPI, since only the
sum and count of the group aggregates are consumed. -/
def distinctVals (l : List String) : List String := dedupAux [] l

/-- The per-product revenue sums of `sales_df.groupby("product")["amount_usd"].sum()`:
one sum for each distinct value of the `product` column. -/
def productGroupSums (sales_df : List SalesRow) : List ℚ :=
  (distinctVals (sales_df.map SalesRow.product)).map
    (fun p => ((sales_df.filter (fun r => r.product == p)).map SalesRow.amount_usd).sum)

/-- `top_sales_df.iloc[0]["sales_person"] if not top_sales_df.empty else "N/A"`:
the name in the first row of the salesperson-ranking table, in its existing
order, or `"N/A"` when empty. -/
def topSalesperson : List TopSalesRow → String
  | [] => "N/A"
  | r :: _ => r.sales_person

/-- `float(top_sales_df.iloc[0]["total_sales"]) if not top_sales_df.empty else 0`. -/
def topSalespersonRevenue : List TopSalesRow → ℚ
  | [] => 0
  | r :: _ => r.total_sales

/-- `compute_kpis(sales_df, top_sales_df, monthly_df)`: returns `none` for the
empty DataFrame short-circuit when the sales-export table is empty, otherwise
the one-row KPI record with all monetary and percentage fields rounded to
two decimals. -/
def compute_kpis (sales_df : List SalesRow) (top_sales_df : List TopSalesRow)
    (monthly_df : List MonthlyRow) : Option KpiRecord :=
  if sales_df.isEmpty then none
  else
    let total_revenue : ℚ := (sales_df.map SalesRow.amount_usd).sum
    let total_orders : Nat := sales_df.length
    let avg_order_value : ℚ :=
      if 0 < total_orders then total_revenue / (total_orders : ℚ) else 0
    let groupSums := productGroupSums sales_df
    let avg_revenue_per_product : ℚ := groupSums.sum / (groupSums.length : ℚ)
    let top_sp : String := topSalesperson top_sales_df
    let top_sp_revenue : ℚ := topSalespersonRevenue top_sales_df
    some {
      total_revenue := round2 total_revenue
      total_orders := total_orders
      avg_order_value := round2 avg_order_value
      avg_revenue_per_product := round2 avg_revenue_per_product
      top_salesperson := top_sp
      top_salesperson_revenue := round2 top_sp_revenue
      monthly_growth_pct := round2 (monthlyGrowthPct monthly_df)
    }

/-- Spec scenario check: the two-row sales table yields the documented
record. -/
theorem kpi_scenario_two_products : compute_kpis [⟨"A", 100⟩, ⟨"B", 50⟩] [] [] =
    some ⟨150, 2, 75, 75, "N/A", 0, 0⟩ := by
  norm_num +decide [compute_kpis, productGroupSums, monthlyGrowthPct, round2, distinctVals, dedupAux, topSalesperson, topSalespersonRevenue]

/-- Spec scenario check: monthly rows (2025, 8, 1000) and (2025, 9, 1200)
give 20% growth. -/
theorem kpi_scenario_growth_twenty : compute_kpis [⟨"A", 100⟩] []
    [⟨2025, 8, 1000⟩, ⟨2025, 9, 1200⟩] =
    some ⟨100, 1, 100, 100, "N/A", 0, 20⟩ := by
  norm_num +decide [compute_kpis, productGroupSums, monthlyGrowthPct, round2, distinctVals, dedupAux, topSalesperson, topSalespersonRevenue,
    sortMonthly, insertMonthly, monthLe]

/-- A generic Tabular Result: named columns and rows of cells, the shape a
pandas DataFrame presents to `export_csv` and `run_pipeline` (cells are
kept as their serialized text). -/
structure DataFrame where
  columns : List String
  rows : List (List String)
  deriving Repr, DecidableEq

/-- The empty DataFrame `pd.DataFrame()`. -/
def emptyDF : DataFrame := ⟨[], []⟩

/-- One comma-separated CSV line. -/
def csvLine (cells : List String) : String := String.intercalate "," cells

/-- The newline-terminated data lines of a CSV body, one line per row. -/
def csvBody : List (List String) → String
  | [] => ""
  | r :: rs => csvLine r ++ "\n" ++ csvBody rs

/-- `df.to_csv(path, index=False)`: the text written — a header line holding
the column names followed by one line per row, no row-index column. -/
def to_csv (df : DataFrame) : String := csvLine df.columns ++ "\n" ++ csvBody df.rows

/-- `export_csv(df, name)`: builds the path
`os.path.join(OUTPUT_DIR, f"{name}_{ts}.csv")` where `ts` is the wall-clock
timestamp `datetime.now().strftime("%Y%m%d_%H%M%S")` (passed here as a
parameter, since wall-clock time is an input of the run), writes the frame
with `index=False`, and returns the path.  Modelled as the pair
(path returned, file content written). -/
def export_csv (output_dir ts : String) (df : DataFrame) (name : String) : String × String :=
  let path := output_dir ++ "/" ++ name ++ "_" ++ ts ++ ".csv"
  (path, to_csv df)

/-- `load_view(engine, view_name)`: tries `pd.read_sql_table` first and only
on an exception falls back to `pd.read_sql(SELECT * ...)`; an exception of
the fallback is not caught and propagates to the caller.  The two strategy
outcomes are inputs (`Except` results of the two reads); the returned flag
records whether the fallback strategy was attempted. -/
def load_view (primary fallback : Except String DataFrame) :
    Except String DataFrame × Bool :=
  match primary with
  | .ok df => (.ok df, false)
  | .error _ => (fallback, true)

/-- The fixed view-name → output-label table of `run_pipeline`. -/
def views : List (String × String) :=
  [("vw_sales_export", "sales_export"),
   ("summary_sales_country", "sales_by_country"),
   ("summary_sales_person", "sales_by_salesperson"),
   ("summary_product_sales", "sales_by_product"),
   ("summary_deal_size", "deal_size"),
   ("vw_monthly_sales", "monthly_sales"),
   ("vw_null_summary", "data_quality")]

/-- The per-view `try/except` of `run_pipeline`: a load failure is replaced
by an empty DataFrame so the remaining views are still processed. -/
def orchLoad (r : Except String DataFrame) : DataFrame :=
  match r with
  | .ok df => df
  | .error _ => emptyDF

/-- The `dfs` dictionary built by `run_pipeline`: every configured view is
loaded through `load_view` (primary strategy, then fallback), and a failed
load is substituted with an empty DataFrame.  `env` gives, per view name,
the outcomes of the two read strategies for this run. -/
def load_all (env : String → Except String DataFrame × Except String DataFrame) :
    List (String × DataFrame) :=
  views.map (fun vl => (vl.2, orchLoad (load_view (env vl.1).1 (env vl.1).2).1))

/-- `dfs.get(label, pd.DataFrame())`. -/
def lookupDF (dfs : List (String × DataFrame)) (label : String) : DataFrame :=
  ((dfs.find? (fun x => x.1 == label)).getD (label, emptyDF)).2

/-- The one-row DataFrame holding a KPI record (or the empty frame when
`compute_kpis` short-circuited). -/
def kpiToDF : Option KpiRecord → DataFrame
  | none => emptyDF
  | some k =>
    ⟨["total_revenue", "total_orders", "avg_order_value", "avg_revenue_per_product",
      "top_salesperson", "top_salesperson_revenue", "monthly_growth_pct"],
     [[toString k.total_revenue, toString k.total_orders, toString k.avg_order_value,
       toString k.avg_revenue_per_product, k.top_salesperson,
       toString k.top_salesperson_revenue, toString k.monthly_growth_pct]]⟩

/-- `run_pipeline` after the connection is made, as the ordered list of
(label, DataFrame) CSV exports it performs: one export per configured view
(empty substitute on failure), then — unconditionally — the `kpi_summary`
export of the `compute_kpis` result.  `decS`, `decT`, `decM` read the three
typed KPI input tables out of their loaded DataFrames. -/
def run_pipeline_exports
    (env : String → Except String DataFrame × Except String DataFrame)
    (decS : DataFrame → List SalesRow) (decT : DataFrame → List TopSalesRow)
    (decM : DataFrame → List MonthlyRow) : List (String × DataFrame) :=
  let dfs := load_all env
  let kpi := compute_kpis (decS (lookupDF dfs "sales_export"))
    (decT (lookupDF dfs "sales_by_salesperson"))
    (decM (lookupDF dfs "monthly_sales"))
  dfs ++ [("kpi_summary", kpiToDF kpi)]

/-- Python truthiness of an optional environment string: `None` and the
empty string are falsy. -/
def pyTruthy : Option String → Bool
  | none => false
  | some s => !s.isEmpty

/-- The outcome of one process invocation: either the module-level check
aborted with an exit code before any connection attempt, or the pipeline
ran and performed the listed exports. -/
inductive RunOutcome where
  | aborted (code : Nat)
  | ran (exports : List (String × DataFrame))
  deriving Repr, DecidableEq

/-- The whole program: the module-level validation
`if not PG_USER or not PG_PASS: raise SystemExit(1)` runs first; only when
both credentials are truthy does `run_pipeline()` execute (creating the
engine, loading views, and writing files — all confined to the `ran`
branch). -/
def program_run (pg_user pg_pass : Option String)
    (env : String → Except String DataFrame × Except String DataFrame)
    (decS : DataFrame → List SalesRow) (decT : DataFrame → List TopSalesRow)
    (decM : DataFrame → List MonthlyRow) : RunOutcome :=
  if !pyTruthy pg_user || !pyTruthy pg_pass then .aborted 1
  else .ran (run_pipeline_exports env decS decT decM)

/-!  Spec-side formulations, kept separate from the source embedding so the
claims can compare the two. -/

/-- The month-over-month growth rule as the specification words it: sort the
monthly table ascending by `(year, month)`, take the last row's
`total_sales` as `current` and the second-to-last as `previous` (if only one
row exists, `previous = current`); the growth is `0` when `previous = 0`
and `(current - previous) / previous * 100` otherwise. -/
def growthSpec (monthly : List MonthlyRow) : ℚ :=
  let mdf := sortMonthly monthly
  let current := (mdf.getLast?.getD defaultMonthlyRow).total_sales
  let previous :=
    if mdf.length ≤ 1 then current
    else ((mdf.get? (mdf.length - 2)).getD defaultMonthlyRow).total_sales
  if previous = 0 then 0 else (current - previous) / previous * 100

/-!  Helper lemmas. -/

theorem round2_zero : round2 0 = 0 := by
  norm_num [round2]

theorem isEmpty_false_of_ne_nil {α : Type} {l : List α} (h : l ≠ []) :
    l.isEmpty = false := by
  cases l with
  | nil => exact absurd rfl h
  | cons x xs => rfl

/-- Characterization of `compute_kpis` on a non-empty sales table: the
guard does not fire and every field of the record is the corresponding
formula. -/
theorem compute_kpis_eq (sales : List SalesRow) (top : List TopSalesRow)
    (monthly : List MonthlyRow) (h : sales ≠ []) :
    compute_kpis sales top monthly = some
      { total_revenue := round2 ((sales.map SalesRow.amount_usd).sum)
        total_orders := sales.length
        avg_order_value := round2 ((sales.map SalesRow.amount_usd).sum / (sales.length : ℚ))
        avg_revenue_per_product :=
          round2 ((productGroupSums sales).sum / ((productGroupSums sales).length : ℚ))
        top_salesperson := topSalesperson top
        top_salesperson_revenue := round2 (topSalespersonRevenue top)
        monthly_growth_pct := round2 (monthlyGrowthPct monthly) } := by
  have h1 : sales.isEmpty = false := isEmpty_false_of_ne_nil h
  have h2 : 0 < sales.length := List.length_pos.mpr h
  simp only [compute_kpis, h1, Bool.false_eq_true, if_false, if_pos h2]

/-- The source's guard order (`prev != 0` with `0` default, `iloc[-2]`
taken when `len > 1`) agrees with the spec's order (`previous = 0` giving
`0`, second-to-last taken unless at most one row). -/
theorem growth_ite_eq (L A : ℚ) (n : Nat) :
    (if (if 1 < n then A else L) ≠ 0
      then (L - (if 1 < n then A else L)) / (if 1 < n then A else L) * 100 else 0)
    = (if (if n ≤ 1 then L else A) = 0
      then 0 else (L - (if n ≤ 1 then L else A)) / (if n ≤ 1 then L else A) * 100) := by
  have hp : (if 1 < n then A else L) = (if n ≤ 1 then L else A) := by
    by_cases hl : 1 < n
    · rw [if_pos hl, if_neg (by omega)]
    · rw [if_neg hl, if_pos (by omega)]
  rw [hp]
  by_cases hz : (if n ≤ 1 then L else A) = 0
  · rw [if_neg (not_not_intro hz), if_pos hz]
  · rw [if_pos hz, if_neg hz]

/-- On a non-empty monthly table the source growth block computes exactly
the spec's rule. -/
theorem monthlyGrowthPct_eq_growthSpec (monthly : List MonthlyRow) (h : monthly ≠ []) :
    monthlyGrowthPct monthly = growthSpec monthly := by
  have h1 : monthly.isEmpty = false := isEmpty_false_of_ne_nil h
  simp only [monthlyGrowthPct, growthSpec, h1, Bool.false_eq_true, if_false]
  exact growth_ite_eq _ _ _

/-!  Claim theorems. -/

/-- C1: for every invocation of `compute_kpis` with an empty sales-export
table, the result is the empty record with no KPI row, whatever the
salesperson-ranking and monthly-aggregate tables hold; the embedded
function is total, so no error is raised. -/
theorem C1_empty_sales_short_circuit (top : List TopSalesRow) (monthly : List MonthlyRow) :
    compute_kpis [] top monthly = none := rfl

/-- C2: for every non-empty sales-export table, the KPI record's growth
percentage is the spec's rule — sort the monthly table ascending by
`(year, month)`, current = last row's `total_sales`, previous =
second-to-last (previous = current when only one row exists), growth
`(current - previous) / previous * 100` with a zero result when previous
is `0` — rounded to two decimals; in particular a one-row monthly table
gives growth 0, and a zero second-to-last `total_sales` gives growth 0. -/
theorem C2_monthly_growth (sales : List SalesRow) (top : List TopSalesRow)
    (monthly : List MonthlyRow) (hs : sales ≠ []) (hm : monthly ≠ []) :
    ∃ k, compute_kpis sales top monthly = some k ∧
      k.monthly_growth_pct = round2 (growthSpec monthly) ∧
      (monthly.length = 1 → k.monthly_growth_pct = 0) ∧
      (∀ prev, 1 < (sortMonthly monthly).length →
        ((sortMonthly monthly).get? ((sortMonthly monthly).length - 2)).getD
          defaultMonthlyRow = prev →
        prev.total_sales = 0 → k.monthly_growth_pct = 0) := by
  refine ⟨_, compute_kpis_eq sales top monthly hs, ?_, ?_, ?_⟩
  · show round2 (monthlyGrowthPct monthly) = round2 (growthSpec monthly)
    rw [monthlyGrowthPct_eq_growthSpec monthly hm]
  · intro h1
    show round2 (monthlyGrowthPct monthly) = 0
    rw [monthlyGrowthPct_eq_growthSpec monthly hm]
    cases monthly with
    | nil => simp at h1
    | cons a t =>
      cases t with
      | nil =>
        have hg : growthSpec [a] = 0 := by
          by_cases hz : a.total_sales = 0 <;>
            simp [growthSpec, sortMonthly, insertMonthly, hz]
        rw [hg, round2_zero]
      | cons b t2 => simp at h1
  · intro prev h2 heq hz
    show round2 (monthlyGrowthPct monthly) = 0
    rw [monthlyGrowthPct_eq_growthSpec monthly hm]
    have hg : growthSpec monthly = 0 := by
      simp only [growthSpec]
      rw [if_neg (show ¬((sortMonthly monthly).length ≤ 1) by omega)]
      rw [heq, hz]
      simp
    rw [hg, round2_zero]

/-- C2 witness: a concrete non-empty run, with growth 20% for the monthly
table `[(2025, 8, 1000), (2025, 9, 1200)]`. -/
theorem C2_monthly_growth_witness :
    ([⟨"A", 1⟩] : List SalesRow) ≠ [] ∧
    ([⟨2025, 8, 1000⟩, ⟨2025, 9, 1200⟩] : List MonthlyRow) ≠ [] ∧
    (∃ k, compute_kpis [⟨"A", 1⟩] [] [⟨2025, 8, 1000⟩, ⟨2025, 9, 1200⟩] = some k ∧
      k.monthly_growth_pct = round2 (growthSpec [⟨2025, 8, 1000⟩, ⟨2025, 9, 1200⟩]) ∧
      (([⟨2025, 8, 1000⟩, ⟨2025, 9, 1200⟩] : List MonthlyRow).length = 1 →
        k.monthly_growth_pct = 0) ∧
      (∀ prev,
        1 < (sortMonthly [⟨2025, 8, 1000⟩, ⟨2025, 9, 1200⟩]).length →
        ((sortMonthly [⟨2025, 8, 1000⟩, ⟨2025, 9, 1200⟩]).get?
            ((sortMonthly [⟨2025, 8, 1000⟩, ⟨2025, 9, 1200⟩]).length - 2)).getD
          defaultMonthlyRow = prev →
        prev.total_sales = 0 → k.monthly_growth_pct = 0)) :=
  ⟨by decide, by decide,
    C2_monthly_growth [⟨"A", 1⟩] [] [⟨2025, 8, 1000⟩, ⟨2025, 9, 1200⟩]
      (by decide) (by decide)⟩

/-- C3: for every non-empty sales-export table, total orders is the row
count and the average order value is total revenue (the sum of
`amount_usd`) divided by total orders, rounded to two decimals. -/
theorem C3_orders_and_avg_order_value (sales : List SalesRow) (top : List TopSalesRow)
    (monthly : List MonthlyRow) (h : sales ≠ []) :
    ∃ k, compute_kpis sales top monthly = some k ∧
      k.total_orders = sales.length ∧
      k.avg_order_value =
        round2 ((sales.map SalesRow.amount_usd).sum / (sales.length : ℚ)) :=
  ⟨_, compute_kpis_eq sales top monthly h, rfl, rfl⟩

/-- C3 witness at a concrete two-row table. -/
theorem C3_orders_and_avg_order_value_witness :
    ([⟨"A", 100⟩, ⟨"B", 50⟩] : List SalesRow) ≠ [] ∧
    (∃ k, compute_kpis [⟨"A", 100⟩, ⟨"B", 50⟩] [] [] = some k ∧
      k.total_orders = ([⟨"A", 100⟩, ⟨"B", 50⟩] : List SalesRow).length ∧
      k.avg_order_value =
        round2 ((([⟨"A", 100⟩, ⟨"B", 50⟩] : List SalesRow).map SalesRow.amount_usd).sum /
          ((([⟨"A", 100⟩, ⟨"B", 50⟩] : List SalesRow).length : ℚ)))) :=
  ⟨by decide, C3_orders_and_avg_order_value [⟨"A", 100⟩, ⟨"B", 50⟩] [] [] (by decide)⟩

/-- C4: for every non-empty sales-export table, the average revenue per
product is the mean over the distinct `product` groups of each group's
summed `amount_usd` (rounded to two decimals); and on the concrete table
`[(A, 100), (B, 50)]` the whole record is
`(150, 2, 75, 75, "N/A", 0, 0)`. -/
theorem C4_avg_revenue_per_product (sales : List SalesRow) (top : List TopSalesRow)
    (monthly : List MonthlyRow) (h : sales ≠ []) :
    (∃ k, compute_kpis sales top monthly = some k ∧
      k.avg_revenue_per_product =
        round2 ((productGroupSums sales).sum / ((productGroupSums sales).length : ℚ))) ∧
    compute_kpis [⟨"A", 100⟩, ⟨"B", 50⟩] [] [] =
      some ⟨150, 2, 75, 75, "N/A", 0, 0⟩ := by
  refine ⟨⟨_, compute_kpis_eq sales top monthly h, rfl⟩, ?_⟩
  norm_num +decide [compute_kpis, productGroupSums, monthlyGrowthPct, round2,
    distinctVals, dedupAux, topSalesperson, topSalespersonRevenue]

/-- C4 witness at a concrete one-row table. -/
theorem C4_avg_revenue_per_product_witness :
    ([⟨"A", 100⟩] : List SalesRow) ≠ [] ∧
    ((∃ k, compute_kpis [⟨"A", 100⟩] [] [] = some k ∧
      k.avg_revenue_per_product =
        round2 ((productGroupSums [⟨"A", 100⟩]).sum /
          ((productGroupSums [⟨"A", 100⟩]).length : ℚ))) ∧
    compute_kpis [⟨"A", 100⟩, ⟨"B", 50⟩] [] [] =
      some ⟨150, 2, 75, 75, "N/A", 0, 0⟩) :=
  ⟨by decide, C4_avg_revenue_per_product [⟨"A", 100⟩] [] [] (by decide)⟩

/-- C5: for every non-empty sales-export table, the top-salesperson name
and revenue come from the first row of the salesperson-ranking table in
its existing order (the revenue rounded to two decimals on output), with
`"N/A"` and `0` when that table is empty. -/
theorem C5_top_salesperson (sales : List SalesRow) (top : List TopSalesRow)
    (monthly : List MonthlyRow) (h : sales ≠ []) :
    ∃ k, compute_kpis sales top monthly = some k ∧
      k.top_salesperson = (top.head?.map TopSalesRow.sales_person).getD "N/A" ∧
      k.top_salesperson_revenue = round2 ((top.head?.map TopSalesRow.total_sales).getD 0) ∧
      (top = [] → k.top_salesperson = "N/A" ∧ k.top_salesperson_revenue = 0) := by
  refine ⟨_, compute_kpis_eq sales top monthly h, ?_, ?_, ?_⟩
  · cases top <;> rfl
  · cases top <;> rfl
  · rintro rfl
    exact ⟨rfl, round2_zero⟩

/-- C5 witness: concrete runs with a ranked table and with an empty one. -/
theorem C5_top_salesperson_witness :
    ([⟨"A", 100⟩] : List SalesRow) ≠ [] ∧
    (∃ k, compute_kpis [⟨"A", 100⟩] [⟨"Kivell", 2000⟩, ⟨"Jones", 1500⟩] [] = some k ∧
      k.top_salesperson =
        (([⟨"Kivell", 2000⟩, ⟨"Jones", 1500⟩] : List TopSalesRow).head?.map
          TopSalesRow.sales_person).getD "N/A" ∧
      k.top_salesperson_revenue =
        round2 ((([⟨"Kivell", 2000⟩, ⟨"Jones", 1500⟩] : List TopSalesRow).head?.map
          TopSalesRow.total_sales).getD 0) ∧
      (([⟨"Kivell", 2000⟩, ⟨"Jones", 1500⟩] : List TopSalesRow) = [] →
        k.top_salesperson = "N/A" ∧ k.top_salesperson_revenue = 0)) :=
  ⟨by decide,
    C5_top_salesperson [⟨"A", 100⟩] [⟨"Kivell", 2000⟩, ⟨"Jones", 1500⟩] [] (by decide)⟩

/-- C10: for every non-empty sales-export table with an empty
monthly-aggregate table, `compute_kpis` does not fault — the emptiness
guard makes the positional accesses on the monthly table unreachable (the
embedding is total and its `iloc` placeholders sit behind the same guard)
— the growth percentage is 0 and the other KPIs are still computed. -/
theorem C10_empty_monthly_safe (sales : List SalesRow) (top : List TopSalesRow)
    (h : sales ≠ []) :
    ∃ k, compute_kpis sales top [] = some k ∧
      k.monthly_growth_pct = 0 ∧
      k.total_orders = sales.length ∧
      k.total_revenue = round2 ((sales.map SalesRow.amount_usd).sum) ∧
      k.avg_order_value =
        round2 ((sales.map SalesRow.amount_usd).sum / (sales.length : ℚ)) ∧
      k.top_salesperson = topSalesperson top := by
  refine ⟨_, compute_kpis_eq sales top [] h, ?_, rfl, rfl, rfl, rfl⟩
  exact round2_zero

/-- C10 witness at a concrete one-row sales table. -/
theorem C10_empty_monthly_safe_witness :
    ([⟨"A", 100⟩] : List SalesRow) ≠ [] ∧
    (∃ k, compute_kpis [⟨"A", 100⟩] [⟨"Kivell", 2000⟩] [] = some k ∧
      k.monthly_growth_pct = 0 ∧
      k.total_orders = ([⟨"A", 100⟩] : List SalesRow).length ∧
      k.total_revenue = round2 ((([⟨"A", 100⟩] : List SalesRow).map SalesRow.amount_usd).sum) ∧
      k.avg_order_value =
        round2 ((([⟨"A", 100⟩] : List SalesRow).map SalesRow.amount_usd).sum /
          ((([⟨"A", 100⟩] : List SalesRow).length : ℚ))) ∧
      k.top_salesperson = topSalesperson [⟨"Kivell", 2000⟩]) :=
  ⟨by decide, C10_empty_monthly_safe [⟨"A", 100⟩] [⟨"Kivell", 2000⟩] (by decide)⟩

/-- Environment in which every view read succeeds with the empty frame. -/
def envAllOk : String → Except String DataFrame × Except String DataFrame :=
  fun _ => (.ok emptyDF, .ok emptyDF)

/-- Environment in which both read strategies fail for every view. -/
def envBothFail : String → Except String DataFrame × Except String DataFrame :=
  fun _ => (.error "primary failed", .error "fallback failed")

/-- Decoder of the typed sales table out of a loaded frame that carries no
sales rows (the empty frame decodes to the empty table). -/
def decSEmpty : DataFrame → List SalesRow := fun _ => []

/-- Decoder of the typed ranking table, empty case. -/
def decTEmpty : DataFrame → List TopSalesRow := fun _ => []

/-- Decoder of the typed monthly table, empty case. -/
def decMEmpty : DataFrame → List MonthlyRow := fun _ => []

/-- C6 counterexample: in a run whose sales-export view is empty, the KPI
computation returns the empty result, yet `run_pipeline` still performs the
`kpi_summary` export (of an empty frame) — the claimed skip does not
happen. -/
theorem C6_counterexample :
    compute_kpis (decSEmpty (lookupDF (load_all envAllOk) "sales_export"))
        (decTEmpty (lookupDF (load_all envAllOk) "sales_by_salesperson"))
        (decMEmpty (lookupDF (load_all envAllOk) "monthly_sales")) = none ∧
    ("kpi_summary", emptyDF) ∈ run_pipeline_exports envAllOk decSEmpty decTEmpty decMEmpty := by
  constructor
  · rfl
  · exact List.mem_append_right _ (by simp [run_pipeline_exports]; rfl)

/-- C6 amended: `run_pipeline` always exports the `kpi_summary` CSV, as the
final export after the seven per-view exports, even when `compute_kpis`
returned the empty result. -/
theorem C6_kpi_export_unconditional
    (env : String → Except String DataFrame × Except String DataFrame)
    (decS : DataFrame → List SalesRow) (decT : DataFrame → List TopSalesRow)
    (decM : DataFrame → List MonthlyRow) :
    (run_pipeline_exports env decS decT decM).map Prod.fst
      = views.map Prod.snd ++ ["kpi_summary"] := by
  simp [run_pipeline_exports, load_all]

/-- C7: the fallback read is attempted exactly when the primary structured
read raises; when both fail the loader returns the error to its caller; and
the orchestrator substitutes an empty frame for a failed view while keeping
every configured view in the processed list. -/
theorem C7_fallback_and_substitution (p f : Except String DataFrame)
    (env : String → Except String DataFrame × Except String DataFrame) :
    (∀ df, p = .ok df → load_view p f = (.ok df, false)) ∧
    (∀ e, p = .error e → load_view p f = (f, true)) ∧
    ((load_all env).map Prod.fst = views.map Prod.snd) ∧
    (∀ vn lbl, (vn, lbl) ∈ views →
      ∀ e, (load_view (env vn).1 (env vn).2).1 = .error e →
        (lbl, emptyDF) ∈ load_all env) := by
  refine ⟨?_, ?_, ?_, ?_⟩
  · rintro df rfl; rfl
  · rintro e rfl; rfl
  · simp [load_all]
  · intro vn lbl hmem e herr
    have h2 := List.mem_map_of_mem (fun vl : String × String =>
      (vl.2, orchLoad (load_view (env vl.1).1 (env vl.1).2).1)) hmem
    simp only at h2
    rw [herr] at h2
    simpa [load_all, orchLoad] using h2

/-- C7 witness: with both strategies failing, the fallback error is what the
loader returns, and the orchestrator still carries the view with an empty
substitute. -/
theorem C7_fallback_and_substitution_witness :
    load_view (Except.error "primary failed") (Except.error "fallback failed")
      = (Except.error "fallback failed", true) ∧
    ("sales_export", emptyDF) ∈ load_all envBothFail := by
  constructor
  · exact (C7_fallback_and_substitution (Except.error "primary failed")
      (Except.error "fallback failed") envBothFail).2.1 "primary failed" rfl
  · exact (C7_fallback_and_substitution (Except.error "primary failed")
      (Except.error "fallback failed") envBothFail).2.2.2
      "vw_sales_export" "sales_export" (by simp [views]) "fallback failed" rfl

/-- C8: with the username or the password configuration value absent, the
module-level check aborts with exit code 1; the run never reaches the
`ran` branch, so no engine is created, no view loaded, and no file
written. -/
theorem C8_missing_credentials_abort (u p : Option String)
    (env : String → Except String DataFrame × Except String DataFrame)
    (decS : DataFrame → List SalesRow) (decT : DataFrame → List TopSalesRow)
    (decM : DataFrame → List MonthlyRow) (h : u = none ∨ p = none) :
    program_run u p env decS decT decM = RunOutcome.aborted 1 ∧
    ∀ exports, program_run u p env decS decT decM ≠ RunOutcome.ran exports := by
  have habort : program_run u p env decS decT decM = RunOutcome.aborted 1 := by
    rcases h with rfl | rfl
    · simp [program_run, pyTruthy]
    · simp [program_run, pyTruthy]
  exact ⟨habort, by simp [habort]⟩

/-- C8 witness: a run with no username is aborted. -/
theorem C8_missing_credentials_abort_witness :
    ((none : Option String) = none ∨ (some "secret" : Option String) = none) ∧
    (program_run none (some "secret") envAllOk decSEmpty decTEmpty decMEmpty
        = RunOutcome.aborted 1 ∧
      ∀ exports, program_run none (some "secret") envAllOk decSEmpty decTEmpty decMEmpty
        ≠ RunOutcome.ran exports) :=
  ⟨Or.inl rfl,
    C8_missing_credentials_abort none (some "secret") envAllOk decSEmpty decTEmpty decMEmpty
      (Or.inl rfl)⟩

/-- One line per entry, each terminated by a newline. -/
def joinLines : List String → String
  | [] => ""
  | l :: ls => l ++ "\n" ++ joinLines ls

/-- The lines the spec prescribes for an exported CSV: a header row holding
the comma-joined column names, then one comma-separated line per data row —
and nothing else, so no row-index column. -/
def csvSpecLines (df : DataFrame) : List String :=
  csvLine df.columns :: df.rows.map csvLine

theorem csvBody_eq_joinLines (rs : List (List String)) :
    csvBody rs = joinLines (rs.map csvLine) := by
  induction rs with
  | nil => rfl
  | cons r rs ih => simp [csvBody, joinLines, ih]

/-- C9: `export_csv` writes to `<output dir>/<label>_<timestamp>.csv`
(the timestamp being the wall-clock `YYYYMMDD_HHMMSS` string of the run,
an input of the model), returns that full path, and the written content is
exactly the header line of column names followed by one line per row, with
no row-index column. -/
theorem C9_export_csv (dir ts name : String) (df : DataFrame) :
    (export_csv dir ts df name).1 = dir ++ "/" ++ name ++ "_" ++ ts ++ ".csv" ∧
    (export_csv dir ts df name).2 = joinLines (csvSpecLines df) := by
  constructor
  · rfl
  · simp [export_csv, to_csv, csvSpecLines, joinLines, csvBody_eq_joinLines]

end PharmaETL
